import Mathlib

/-!
Shallow embedding of the krenew sources (src/krenew.c, src/portable/daemon.c).

The external credential-service (Kerberos) calls are modelled by an oracle
structure giving the error code of each call site, together with a small state
model of the one ticket cache the program works on.  Process-terminating calls
(`exit_cleanup`, `die`, `die_krb5`) are modelled as distinguished outcome
constructors.  Each embedded function also produces a trace of the external
operations it attempted, in order, so statements about ordering, resource
balance and "no I/O" are statements about the trace.
-/

namespace KStart

/-- krb5 error code KRB5KRB_AP_ERR_TKT_EXPIRED (ticket expired). -/
def KRB5KRB_AP_ERR_TKT_EXPIRED : Int := -1765328352

/-- krb5 error code KRB5KDC_ERR_KEY_EXP (cannot renew for long enough). -/
def KRB5KDC_ERR_KEY_EXP : Int := -1765328361

/-- Error code returned by the cache model when the cache holds no principal. -/
def KRB5_FCC_NOFILE : Int := -1765328189

/-- A credential entry: the client principal it belongs to and abstract payload. -/
structure Creds where
  client : Nat
  payload : Nat
deriving DecidableEq, Repr

/-- Contents of a ticket cache: optional principal and stored credentials. -/
structure CCache where
  princ : Option Nat
  creds : List Creds
deriving DecidableEq, Repr

/-- The fields of `struct config` (and `struct krenew_private`) that krenew.c
reads or writes: command-line flags, the cache name, the supervised command,
and the child PID record. -/
structure Config where
  cache : Option String := none
  keep_ticket : Int := 0
  happy_ticket : Int := 0
  always_renew : Bool := false
  background : Bool := false
  ignore_errors : Bool := false
  exit_errors : Bool := false
  signal_child : Bool := false
  command : Option (List String) := none
  childfile : Option String := none
  pidfile : Option String := none
  verbose : Bool := false
  do_aklog : Bool := false
  clean_cache : Bool := false
  child : Nat := 0
deriving DecidableEq, Repr

/-- Model of `krb5_cc_get_principal`: the oracle error `err` if nonzero,
otherwise the cache's principal, or an error when the cache holds none. -/
def krb5_cc_get_principal (err : Int) (c : CCache) : Except Int Nat :=
  if err ≠ 0 then .error err
  else
    match c.princ with
    | some u => .ok u
    | none => .error KRB5_FCC_NOFILE

/-- Oracle for one invocation of `renew`: the error code each krb5 call site
returns (0 = success) and the payload of the renewed credentials the KDC
would hand back. -/
structure RenewEnv where
  resolveErr : Int
  getPrincErr : Int
  unparseErr : Int
  renewErr : Int
  initErr : Int
  storeErr : Int
  renewedPayload : Nat
deriving DecidableEq, Repr

/-- How one call of the `renew` callback ends: `exitCleanup s` models the
process-terminating `exit_cleanup(ctx, config, s)`, `ret c` a normal return
of the Kerberos error code `c` to the framework. -/
inductive Outcome where
  | exitCleanup (status : Int)
  | ret (code : Int)
deriving DecidableEq, Repr

/-- External operations `renew` performs, with their success flag where the
call can fail.  Cache I/O is every `cc*` and `getRenewedCreds` event. -/
inductive Ev where
  | ccResolve (ok : Bool)
  | ccGetPrincipal (ok : Bool)
  | ccClose
  | freePrincipal
  | unparseName (ok : Bool)
  | freeUnparsedName
  | getRenewedCreds (ok : Bool)
  | ccInitialize (ok : Bool)
  | ccStoreCred (ok : Bool)
  | freeCredContents
deriving DecidableEq, Repr

/-- The number of occurrences of event `e` in a trace. -/
def countEv (e : Ev) : List Ev → Nat
  | [] => 0
  | x :: xs => (if x = e then 1 else 0) + countEv e xs

/-- Trace of the optional verbose block (krenew.c lines 181-191):
`krb5_unparse_name` and, on success, `krb5_free_unparsed_name`. -/
def verboseTrace (config : Config) (env : RenewEnv) : List Ev :=
  if config.verbose then
    if env.unparseErr ≠ 0 then [.unparseName false]
    else [.unparseName true, .freeUnparsedName]
  else []

/-- Embedding of `renew` (src/krenew.c lines 143-231).  Takes the
configuration, the `status` argument carried over from the previous cycle,
the oracle for this attempt's krb5 calls, and the current contents of the
cache named by `config.cache`; returns the outcome, the cache contents
afterwards, and the trace of external operations attempted, in order. -/
def renew (config : Config) (status : Int) (env : RenewEnv) (st : CCache) :
    Outcome × CCache × List Ev :=
  if status ≠ 0 ∧ status ≠ KRB5KRB_AP_ERR_TKT_EXPIRED then
    if ¬config.ignore_errors then (.exitCleanup 1, st, [])
    else (.ret status, st, [])
  else if env.resolveErr ≠ 0 then
    if ¬config.ignore_errors then (.exitCleanup 1, st, [.ccResolve false])
    else (.ret env.resolveErr, st, [.ccResolve false])
  else
    match krb5_cc_get_principal env.getPrincErr st with
    | .error e =>
      if ¬config.ignore_errors then
        (.exitCleanup 1, st, [.ccResolve true, .ccGetPrincipal false, .ccClose])
      else (.ret e, st, [.ccResolve true, .ccGetPrincipal false, .ccClose])
    | .ok user =>
      if env.renewErr ≠ 0 then
        (.ret env.renewErr, st,
          [.ccResolve true, .ccGetPrincipal true] ++ verboseTrace config env ++
            [.getRenewedCreds false, .ccClose, .freePrincipal, .freeCredContents])
      else if env.initErr ≠ 0 then
        (.ret env.initErr, st,
          [.ccResolve true, .ccGetPrincipal true] ++ verboseTrace config env ++
            [.getRenewedCreds true, .ccInitialize false, .ccClose, .freePrincipal,
              .freeCredContents])
      else if env.storeErr ≠ 0 then
        (.ret env.storeErr, ⟨some user, []⟩,
          [.ccResolve true, .ccGetPrincipal true] ++ verboseTrace config env ++
            [.getRenewedCreds true, .ccInitialize true, .ccStoreCred false, .ccClose,
              .freePrincipal, .freeCredContents])
      else
        (.ret 0, ⟨some user, [⟨user, env.renewedPayload⟩]⟩,
          [.ccResolve true, .ccGetPrincipal true] ++ verboseTrace config env ++
            [.getRenewedCreds true, .ccInitialize true, .ccStoreCred true, .ccClose,
              .freePrincipal, .freeCredContents])

/-- The trace component of a `renew` call. -/
def renewTrace (config : Config) (status : Int) (env : RenewEnv) (st : CCache) : List Ev :=
  (renew config status env st).2.2

/-- Modelled from the spec: the Scheduler's error policy (§4.4 RUNNING), whose
translation unit (the generic framework) is not under src/.  Given the outcome
of an attempt and whether the failure was a cache/permanent failure, decide
whether the loop continues to the next wake. -/
def loopContinues (config : Config) (r : Outcome) (cacheOrPermanent : Bool) : Bool :=
  match r with
  | .exitCleanup _ => false
  | .ret c =>
    if c = 0 then true
    else if cacheOrPermanent then config.ignore_errors
    else !config.exit_errors

/-- Oracle for one invocation of `copy_cache`: success of the temp-file system
calls, the name `mkstemp` produced, and the error codes of the krb5 calls. -/
structure CopyEnv where
  mkstempOk : Bool
  mkstempName : String
  fchmodOk : Bool
  resolveErr : Int
  getPrincErr : Int
  initErr : Int
  copyErr : Int
  closeErr : Int
deriving DecidableEq, Repr

/-- External operations `copy_cache` performs, in order, with success flags.
`fchmodCall` records the requested mode. -/
inductive CopyEv where
  | mkstempCall (ok : Bool)
  | fchmodCall (mode : Nat) (ok : Bool)
  | resolveNew (ok : Bool)
  | getPrincipalOld (ok : Bool)
  | initializeNew (ok : Bool)
  | freePrincipalCall
  | copyCredsCall (ok : Bool)
  | closeOld (ok : Bool)
deriving DecidableEq, Repr

/-- How `copy_cache` ends: `died msg` models the process-terminating
`sysdie`/`die_krb5` calls; `ok name nc` a normal return of the new cache's
name with `*ccache` now referring to the new cache whose contents are `nc`. -/
inductive CopyRes where
  | died (msg : String)
  | ok (name : String) (newCache : CCache)
deriving DecidableEq, Repr

/-- Embedding of `copy_cache` (src/krenew.c lines 93-127).  Takes the oracle
and the contents of the old cache `*ccache`; returns the result and the trace
of operations attempted, in order: create the temp file, chmod it 0600,
resolve the new cache, read the old cache's principal, initialize the new
cache for that principal, free the principal, copy the credentials, close the
old cache. -/
def copy_cache (env : CopyEnv) (old : CCache) : CopyRes × List CopyEv :=
  if ¬env.mkstempOk then
    (.died "cannot create ticket cache file", [.mkstempCall false])
  else if ¬env.fchmodOk then
    (.died "cannot chmod ticket cache file", [.mkstempCall true, .fchmodCall 0o600 false])
  else if env.resolveErr ≠ 0 then
    (.died "error initializing new ticket cache",
      [.mkstempCall true, .fchmodCall 0o600 true, .resolveNew false])
  else
    match krb5_cc_get_principal env.getPrincErr old with
    | .error _ =>
      (.died "error getting principal from old cache",
        [.mkstempCall true, .fchmodCall 0o600 true, .resolveNew true, .getPrincipalOld false])
    | .ok u =>
      if env.initErr ≠ 0 then
        (.died "error initializing new cache",
          [.mkstempCall true, .fchmodCall 0o600 true, .resolveNew true, .getPrincipalOld true,
            .initializeNew false])
      else if env.copyErr ≠ 0 then
        (.died "error copying credentials",
          [.mkstempCall true, .fchmodCall 0o600 true, .resolveNew true, .getPrincipalOld true,
            .initializeNew true, .freePrincipalCall, .copyCredsCall false])
      else if env.closeErr ≠ 0 then
        (.died "error closing old ticket cache",
          [.mkstempCall true, .fchmodCall 0o600 true, .resolveNew true, .getPrincipalOld true,
            .initializeNew true, .freePrincipalCall, .copyCredsCall true, .closeOld false])
      else
        (.ok env.mkstempName ⟨some u, old.creds⟩,
          [.mkstempCall true, .fchmodCall 0o600 true, .resolveNew true, .getPrincipalOld true,
            .initializeNew true, .freePrincipalCall, .copyCredsCall true, .closeOld true])

/-- The hang-up signal number. -/
def SIGHUP : Nat := 1

/-- Embedding of the `cleanup` callback (src/krenew.c lines 239-245): the list
of (pid, signal) pairs it sends — SIGHUP to the child when the child PID is
nonzero and `-s` was given, nothing otherwise. -/
def cleanup (config : Config) : List (Nat × Nat) :=
  if config.child ≠ 0 ∧ config.signal_child then [(config.child, SIGHUP)] else []

/-- Why the run is ending, as seen at cleanup time. -/
inductive EndReason where
  | childExited
  | renewalFailure
  | cleanShutdown
deriving DecidableEq, Repr

/-- Modelled from the spec: the Child Process Record lifecycle (§3) maintained
by the framework, whose translation unit is not under src/ — the record's PID
is reset to 0 once the child's exit status is reaped, so when the run ends
because the child itself exited, `config.child` is 0 by the time the cleanup
callback runs. -/
def configAtCleanup (config : Config) : EndReason → Config
  | .childExited => { config with child := 0 }
  | .renewalFailure => config
  | .cleanShutdown => config

/-- The signals delivered during cleanup when the run ends for reason `r`. -/
def signalsAtEnd (config : Config) (r : EndReason) : List (Nat × Nat) :=
  cleanup (configAtCleanup config r)

/-- The cache duplication step of `main` (src/krenew.c lines 336-339): when a
command is configured, the cache is copied to the fresh temporary file `name`
and `clean_cache` is set; returns the updated configuration and whether a
temporary cache file now exists. -/
def mainCacheSetup (config : Config) (name : String) : Config × Bool :=
  if config.command ≠ none then
    ({ config with cache := some name, clean_cache := true }, true)
  else (config, false)

/-- Modelled from the spec: the framework's `exit_cleanup` (§4.4 CLEANUP; its
translation unit is not under src/) deletes the temporary duplicate cache's
backing file when the cache is a temporary duplicate (`clean_cache` set);
returns whether the temp file still exists afterwards. -/
def exitCleanupTempFile (config : Config) (tempExists : Bool) : Bool :=
  if config.clean_cache then false else tempExists

/-- Modelled from the spec: every exit path — success, renewal failure, or
child-driven — passes through CLEANUP before EXIT (§4.4), so the temp-file
state at EXIT is the cleanup result on every path. -/
def tempExistsAtExit (config : Config) (tempExists : Bool) : EndReason → Bool
  | .cleanShutdown => exitCleanupTempFile config tempExists
  | .renewalFailure => exitCleanupTempFile config tempExists
  | .childExited => exitCleanupTempFile config tempExists

/-- The argument-consistency check of `main` (src/krenew.c line 314):
daemon-ish context means an interval was given or a command is to be run. -/
def run_as_daemon (c : Config) : Bool :=
  c.keep_ticket != 0 || c.command != none

/-- The argument-consistency checks of `main` (src/krenew.c lines 313-324),
in order; `some msg` models the process-terminating `die(msg)`, `none` means
the checks pass. -/
def checkArgs (c : Config) : Option String :=
  if c.always_renew && !run_as_daemon c then
    some "-a only makes sense with -K or a command to run"
  else if c.background && !run_as_daemon c then
    some "-b only makes sense with -K or a command to run"
  else if decide (c.happy_ticket > 0) && c.command != none then
    some "-H option cannot be used with a command"
  else if c.childfile != none && c.command == none then
    some "-c option only makes sense with a command to run"
  else if c.signal_child && c.command == none then
    some "-s option only makes sense with a command to run"
  else none

/-- The `-H` and `-K` handling of the option loop (src/krenew.c lines
282-291), applied to the numeric values of the given option arguments, in
command-line order `-H` then `-K`; `.error msg` models `die`. -/
def parseOptArgs (hArg kArg : Option Int) (c : Config) : Except String Config :=
  match hArg with
  | some n =>
    if n ≤ 0 then .error "-H limit argument invalid"
    else
      match kArg with
      | some m =>
        if m ≤ 0 then .error "-K interval argument invalid"
        else .ok { c with happy_ticket := n, keep_ticket := m }
      | none => .ok { c with happy_ticket := n }
  | none =>
    match kArg with
    | some m =>
      if m ≤ 0 then .error "-K interval argument invalid"
      else .ok { c with keep_ticket := m }
    | none => .ok c

/-- How the startup part of `main` ends: `died msg` models `die`/`usage(1)`,
`proceed c` means the startup checks passed with configuration `c`. -/
inductive MainResult where
  | died (msg : String)
  | proceed (c : Config)
deriving DecidableEq, Repr

/-- The startup phases of `main` (src/krenew.c lines 268-335) in source
order: option parsing (`-H`/`-K` validation), argument-consistency checks,
then `krb5_init_context`.  Returns the result and whether a Kerberos context
was established (true only once `krb5_init_context` has succeeded). -/
def mainStartup (hArg kArg : Option Int) (c0 : Config) (initCtxErr : Int) :
    MainResult × Bool :=
  match parseOptArgs hArg kArg c0 with
  | .error m => (.died m, false)
  | .ok c =>
    match checkArgs c with
    | some m => (.died m, false)
    | none =>
      if initCtxErr ≠ 0 then (.died "error initializing Kerberos", false)
      else (.proceed c, true)

/-- Oracle for one invocation of `daemon`: the fork result (negative =
failure, positive = parent, 0 = child), success of `setsid` and `chdir`, the
descriptor `open("/dev/null")` returns (`none` = failure), and success of
each `dup2`. -/
structure DaemonEnv where
  forkResult : Int
  setsidOk : Bool
  chdirOk : Bool
  openNullFd : Option Nat
  dup2StdinOk : Bool
  dup2StdoutOk : Bool
  dup2StderrOk : Bool
deriving DecidableEq, Repr

/-- External operations `daemon` performs, in order. -/
inductive DEv where
  | forkCall
  | setsidCall
  | chdirRoot
  | openNull (ok : Bool)
  | dup2Null (target : Nat) (ok : Bool)
  | closeFd (fd : Nat)
deriving DecidableEq, Repr

/-- How `daemon` ends in the child: `parentExit` models the parent's
`_exit(0)`, `ret code` the function returning `code` (0 success, -1 error). -/
inductive DRes where
  | parentExit
  | ret (code : Int)
deriving DecidableEq, Repr

/-- Descriptor state `daemon` leaves behind: whether each standard stream has
been redirected to the null device, and the descriptors `daemon` opened that
are still open when it returns. -/
structure DState where
  stdinNull : Bool
  stdoutNull : Bool
  stderrNull : Bool
  extraOpen : List Nat
deriving DecidableEq, Repr

/-- The steps of `daemon` before stream redirection: fork, setsid, and —
unless `nochdir` — chdir to the root. -/
def daemonPrefixTrace (nochdir : Bool) : List DEv :=
  [.forkCall, .setsidCall] ++ (if nochdir then [] else [.chdirRoot])

/-- Embedding of `daemon` (src/portable/daemon.c lines 40-96, the
`HAVE_SETSID` configuration): fork (parent exits, fork failure returns -1),
setsid, optional chdir("/"), and — unless `noclose` — open the null device
and `dup2` it onto descriptors 0, 1 and 2 in turn, closing the opened
descriptor afterwards when it is above 2.  Each failing step returns -1
immediately.  Returns the result, the descriptor state, and the trace of
operations attempted, in order. -/
def daemon (nochdir noclose : Bool) (env : DaemonEnv) : DRes × DState × List DEv :=
  if env.forkResult < 0 then (.ret (-1), ⟨false, false, false, []⟩, [.forkCall])
  else if env.forkResult > 0 then (.parentExit, ⟨false, false, false, []⟩, [.forkCall])
  else if ¬env.setsidOk then (.ret (-1), ⟨false, false, false, []⟩, [.forkCall, .setsidCall])
  else if ¬nochdir ∧ ¬env.chdirOk then
    (.ret (-1), ⟨false, false, false, []⟩, [.forkCall, .setsidCall, .chdirRoot])
  else if noclose then (.ret 0, ⟨false, false, false, []⟩, daemonPrefixTrace nochdir)
  else
    match env.openNullFd with
    | none =>
      (.ret (-1), ⟨false, false, false, []⟩, daemonPrefixTrace nochdir ++ [.openNull false])
    | some fd =>
      if ¬env.dup2StdinOk then
        (.ret (-1), ⟨false, false, false, [fd]⟩,
          daemonPrefixTrace nochdir ++ [.openNull true, .dup2Null 0 false])
      else if ¬env.dup2StdoutOk then
        (.ret (-1), ⟨true, false, false, [fd]⟩,
          daemonPrefixTrace nochdir ++ [.openNull true, .dup2Null 0 true, .dup2Null 1 false])
      else if ¬env.dup2StderrOk then
        (.ret (-1), ⟨true, true, false, [fd]⟩,
          daemonPrefixTrace nochdir ++
            [.openNull true, .dup2Null 0 true, .dup2Null 1 true, .dup2Null 2 false])
      else if fd > 2 then
        (.ret 0, ⟨true, true, true, []⟩,
          daemonPrefixTrace nochdir ++
            [.openNull true, .dup2Null 0 true, .dup2Null 1 true, .dup2Null 2 true,
              .closeFd fd])
      else
        (.ret 0, ⟨true, true, true, [fd]⟩,
          daemonPrefixTrace nochdir ++
            [.openNull true, .dup2Null 0 true, .dup2Null 1 true, .dup2Null 2 true])

/-! Helper lemmas about the cache model, shared by several results. -/

/-- A successful principal read returns exactly the cache's principal. -/
theorem krb5_cc_get_principal_ok (err : Int) (c : CCache) (u : Nat)
    (h : krb5_cc_get_principal err c = .ok u) : c.princ = some u := by
  unfold krb5_cc_get_principal at h
  split at h
  · simp at h
  · cases hp : c.princ <;> simp_all

/-- A failed principal read never reports the success code 0. -/
theorem krb5_cc_get_principal_error_ne (err : Int) (c : CCache) (e : Int)
    (h : krb5_cc_get_principal err c = .error e) : e ≠ 0 := by
  unfold krb5_cc_get_principal at h
  split at h
  · rename_i h1
    simp only [Except.error.injEq] at h
    omega
  · cases hp : c.princ with
    | some v => rw [hp] at h; simp at h
    | none =>
      rw [hp] at h
      simp only [Except.error.injEq] at h
      subst h
      unfold KRB5_FCC_NOFILE
      omega

/-- C1: for every renewal attempt that succeeds, the cache afterwards contains
exactly the newly obtained credentials, the cache's principal is the same
principal it held before the attempt, and every stored credential belongs to
that principal: renewal never changes the identity. -/
theorem renew_success_same_principal (config : Config) (status : Int) (env : RenewEnv)
    (st : CCache) (h : (renew config status env st).1 = .ret 0) :
    ∃ u, st.princ = some u ∧
      (renew config status env st).2.1 = ⟨some u, [⟨u, env.renewedPayload⟩]⟩ ∧
      ∀ c ∈ ((renew config status env st).2.1).creds, c.client = u := by
  unfold renew at h ⊢
  split at h
  · split at h <;> simp_all
  · rename_i hs0
    split at h
    · split at h <;> simp_all
    · split at h
      · rename_i e heq
        have he := krb5_cc_get_principal_error_ne _ _ _ heq
        split at h <;> simp_all
      · rename_i user heq
        have hu := krb5_cc_get_principal_ok _ _ _ heq
        split at h
        · simp_all
        · split at h
          · simp_all
          · split at h
            · simp_all
            · rw [if_neg hs0]
              refine ⟨user, hu, ?_, ?_⟩ <;> simp_all

/-- Closed witness for the C1 theorem at a concrete oracle and cache. -/
theorem renew_success_same_principal_witness :
    ∃ u, CCache.princ ⟨some 7, [⟨7, 3⟩]⟩ = some u ∧
      (renew { verbose := false } 0 ⟨0, 0, 0, 0, 0, 0, 9⟩ ⟨some 7, [⟨7, 3⟩]⟩).2.1 =
        ⟨some u, [⟨u, 9⟩]⟩ ∧
      ∀ c ∈ ((renew { verbose := false } 0 ⟨0, 0, 0, 0, 0, 0, 9⟩
          ⟨some 7, [⟨7, 3⟩]⟩).2.1).creds, c.client = u :=
  renew_success_same_principal _ _ _ _ (by decide)

/-- C2: for every renewal attempt in which the cache cannot be resolved or
holds no valid principal, if ignore-errors is unset the attempt terminates the
process via cleanup with failure status 1; if ignore-errors is set it returns
the (nonzero) error code and the scheduler loop continues to the next wake. -/
theorem renew_cache_unavailable_policy (config : Config) (status : Int) (env : RenewEnv)
    (st : CCache)
    (hs : status = 0 ∨ status = KRB5KRB_AP_ERR_TKT_EXPIRED)
    (hc : env.resolveErr ≠ 0 ∨ ∃ e, krb5_cc_get_principal env.getPrincErr st = .error e) :
    (config.ignore_errors = false → (renew config status env st).1 = .exitCleanup 1) ∧
    (config.ignore_errors = true → ∃ e, e ≠ 0 ∧ (renew config status env st).1 = .ret e ∧
      loopContinues config (.ret e) true = true) := by
  have hns : ¬(status ≠ 0 ∧ status ≠ KRB5KRB_AP_ERR_TKT_EXPIRED) := by
    rcases hs with h | h <;> simp [h]
  unfold renew
  rw [if_neg hns]
  by_cases hr : env.resolveErr ≠ 0
  · rw [if_pos hr]
    constructor
    · intro hi; simp [hi]
    · intro hi
      exact ⟨env.resolveErr, hr, by simp [hi], by simp [loopContinues, hr, hi]⟩
  · rw [if_neg hr]
    have hpe : ∃ e, krb5_cc_get_principal env.getPrincErr st = .error e := by
      rcases hc with h | h
      · exact absurd h hr
      · exact h
    obtain ⟨e, heq⟩ := hpe
    have he := krb5_cc_get_principal_error_ne _ _ _ heq
    constructor
    · intro hi; simp [heq, hi]
    · intro hi
      exact ⟨e, he, by simp [heq, hi], by simp [loopContinues, he, hi]⟩

/-- Closed witness for the C2 theorem: an unresolvable cache under the default
(non-ignoring) policy terminates via cleanup with status 1. -/
theorem renew_cache_unavailable_policy_witness :
    (renew { } 0 ⟨5, 0, 0, 0, 0, 0, 0⟩ ⟨some 1, []⟩).1 = .exitCleanup 1 :=
  (renew_cache_unavailable_policy { } 0 ⟨5, 0, 0, 0, 0, 0, 0⟩ ⟨some 1, []⟩
      (Or.inl rfl) (Or.inl (by decide))).1 rfl

/-- C4 counterexample: with a prior status that is nonzero and not
ticket-expired (here: the maximum-renewable-lifetime code) and ignore-errors
unset — the default — the attempt does not return the failure status to the
caller: it terminates the process itself via `exit_cleanup(ctx, config, 1)`,
so the termination decision is not left to the caller. -/
theorem renew_prior_status_counterexample :
    KRB5KDC_ERR_KEY_EXP ≠ 0 ∧
    KRB5KDC_ERR_KEY_EXP ≠ KRB5KRB_AP_ERR_TKT_EXPIRED ∧
    Config.ignore_errors { } = false ∧
    (renew { } KRB5KDC_ERR_KEY_EXP ⟨0, 0, 0, 0, 0, 0, 0⟩ ⟨some 1, []⟩).1 = .exitCleanup 1 ∧
    (renew { } KRB5KDC_ERR_KEY_EXP ⟨0, 0, 0, 0, 0, 0, 0⟩ ⟨some 1, []⟩).1 ≠
      .ret KRB5KDC_ERR_KEY_EXP := by
  decide

/-- C4 as amended: with a prior status that is nonzero and not ticket-expired,
the attempt performs no cache I/O at all (empty operation trace, cache
unchanged); if ignore-errors is set it returns that failure status to the
caller, otherwise it terminates the process itself via cleanup with status 1. -/
theorem renew_prior_status_no_io (config : Config) (status : Int) (env : RenewEnv)
    (st : CCache) (h0 : status ≠ 0) (h1 : status ≠ KRB5KRB_AP_ERR_TKT_EXPIRED) :
    renewTrace config status env st = [] ∧
    (renew config status env st).2.1 = st ∧
    (renew config status env st).1 =
      (if config.ignore_errors then Outcome.ret status else Outcome.exitCleanup 1) := by
  unfold renewTrace renew
  rw [if_pos ⟨h0, h1⟩]
  by_cases hi : config.ignore_errors <;> simp [hi]

/-- Closed witness for the amended C4 theorem at a concrete prior status. -/
theorem renew_prior_status_no_io_witness :
    renewTrace { ignore_errors := true } KRB5KDC_ERR_KEY_EXP ⟨0, 0, 0, 0, 0, 0, 0⟩
        ⟨some 1, []⟩ = [] ∧
    (renew { ignore_errors := true } KRB5KDC_ERR_KEY_EXP ⟨0, 0, 0, 0, 0, 0, 0⟩
        ⟨some 1, []⟩).2.1 = ⟨some 1, []⟩ ∧
    (renew { ignore_errors := true } KRB5KDC_ERR_KEY_EXP ⟨0, 0, 0, 0, 0, 0, 0⟩
        ⟨some 1, []⟩).1 =
      (if Config.ignore_errors { ignore_errors := true } then
        Outcome.ret KRB5KDC_ERR_KEY_EXP else Outcome.exitCleanup 1) :=
  renew_prior_status_no_io { ignore_errors := true } KRB5KDC_ERR_KEY_EXP
    ⟨0, 0, 0, 0, 0, 0, 0⟩ ⟨some 1, []⟩ (by decide) (by decide)

/-- C8: every renewal attempt releases what it acquired on every branch — the
cache handle is closed exactly as often as it was opened (and at most once),
the principal freed exactly as often as it was read (at most once), and the
credential buffer freed exactly as often as a credential request initialized
it (at most once), on success and on failure alike. -/
theorem renew_releases_resources (config : Config) (status : Int) (env : RenewEnv)
    (st : CCache) :
    countEv (.ccResolve true) (renewTrace config status env st) =
      countEv .ccClose (renewTrace config status env st) ∧
    countEv (.ccGetPrincipal true) (renewTrace config status env st) =
      countEv .freePrincipal (renewTrace config status env st) ∧
    countEv (.getRenewedCreds true) (renewTrace config status env st) +
        countEv (.getRenewedCreds false) (renewTrace config status env st) =
      countEv .freeCredContents (renewTrace config status env st) ∧
    countEv .ccClose (renewTrace config status env st) ≤ 1 ∧
    countEv .freePrincipal (renewTrace config status env st) ≤ 1 ∧
    countEv .freeCredContents (renewTrace config status env st) ≤ 1 := by
  unfold renewTrace renew verboseTrace
  repeat' split
  all_goals simp [countEv]

/-- C5: a successful cache duplication performed, in order: creation of a
fresh temporary cache file, chmod to owner-only mode 0600, resolution of the
new cache, a principal read from the source cache, initialization of the new
cache for that same principal, the copy of all credential material, and
finally the close of the source handle; it returns the temporary file's name,
and the handle now refers to the new cache, which holds the source's
principal and all of its credentials. -/
theorem copy_cache_success (env : CopyEnv) (old : CCache) (name : String) (nc : CCache)
    (h : (copy_cache env old).1 = .ok name nc) :
    (copy_cache env old).2 =
      [.mkstempCall true, .fchmodCall 0o600 true, .resolveNew true, .getPrincipalOld true,
        .initializeNew true, .freePrincipalCall, .copyCredsCall true, .closeOld true] ∧
    name = env.mkstempName ∧ nc.princ = old.princ ∧ nc.creds = old.creds := by
  unfold copy_cache at h ⊢
  split at h
  · simp at h
  · split at h
    · simp at h
    · split at h
      · simp at h
      · split at h
        · simp at h
        · rename_i u hequ
          have hu := krb5_cc_get_principal_ok _ _ _ hequ
          split at h
          · simp at h
          · split at h
            · simp at h
            · split at h
              · simp at h
              · have h' : CopyRes.ok env.mkstempName ⟨some u, old.creds⟩ = .ok name nc := h
                cases h'
                refine ⟨?_, ?_, ?_, ?_⟩ <;> simp_all

/-- Closed witness for the C5 theorem at a concrete oracle and source cache. -/
theorem copy_cache_success_witness :
    (copy_cache ⟨true, "/tmp/krb5cc_0_ab1234", true, 0, 0, 0, 0, 0⟩
        ⟨some 7, [⟨7, 3⟩, ⟨7, 4⟩]⟩).2 =
      [.mkstempCall true, .fchmodCall 0o600 true, .resolveNew true, .getPrincipalOld true,
        .initializeNew true, .freePrincipalCall, .copyCredsCall true, .closeOld true] ∧
    "/tmp/krb5cc_0_ab1234" =
      CopyEnv.mkstempName ⟨true, "/tmp/krb5cc_0_ab1234", true, 0, 0, 0, 0, 0⟩ ∧
    CCache.princ ⟨some 7, [⟨7, 3⟩, ⟨7, 4⟩]⟩ = CCache.princ ⟨some 7, [⟨7, 3⟩, ⟨7, 4⟩]⟩ ∧
    CCache.creds ⟨some 7, [⟨7, 3⟩, ⟨7, 4⟩]⟩ = CCache.creds ⟨some 7, [⟨7, 3⟩, ⟨7, 4⟩]⟩ :=
  copy_cache_success ⟨true, "/tmp/krb5cc_0_ab1234", true, 0, 0, 0, 0, 0⟩
    ⟨some 7, [⟨7, 3⟩, ⟨7, 4⟩]⟩ "/tmp/krb5cc_0_ab1234" ⟨some 7, [⟨7, 3⟩, ⟨7, 4⟩]⟩ (by decide)

/-- C6 counterexample: a happy-ticket threshold alone — no interval and no
command — passes every startup check and startup proceeds all the way to a
Kerberos context, whereas the claim calls this a configuration error. -/
theorem checkArgs_happy_counterexample :
    Config.happy_ticket { happy_ticket := 10 } > 0 ∧
    Config.keep_ticket { happy_ticket := 10 } = 0 ∧
    Config.command { happy_ticket := 10 } = none ∧
    checkArgs { happy_ticket := 10 } = none ∧
    mainStartup (some 10) none { } 0 = (.proceed { happy_ticket := 10 }, true) := by
  decide

/-- C6 as amended: startup validation fails fast (dies before any Kerberos
context is established) exactly when: always-renew or background is set
without an interval and without a command; a happy-ticket threshold is set
together with a command; or a child-PID-file or signal-child option is set
without a command. -/
theorem checkArgs_exact (c : Config) (e : Int) :
    (checkArgs c = none ↔
      (¬(c.always_renew = true ∧ run_as_daemon c = false) ∧
       ¬(c.background = true ∧ run_as_daemon c = false) ∧
       ¬(c.happy_ticket > 0 ∧ c.command ≠ none) ∧
       ¬(c.childfile ≠ none ∧ c.command = none) ∧
       ¬(c.signal_child = true ∧ c.command = none))) ∧
    (∀ m, checkArgs c = some m → mainStartup none none c e = (.died m, false)) := by
  constructor
  · unfold checkArgs
    split_ifs with h1 h2 h3 h4 h5 <;>
      simp_all [Bool.and_eq_true, Bool.not_eq_true', decide_eq_true_eq,
        bne_iff_ne, beq_iff_eq]
  · intro m hm
    simp [mainStartup, parseOptArgs, hm]

/-- Closed witness for the amended C6 theorem: `-a` alone dies fast. -/
theorem checkArgs_exact_witness :
    mainStartup none none { always_renew := true } 0 =
      (.died "-a only makes sense with -K or a command to run", false) :=
  (checkArgs_exact { always_renew := true } 0).2
    ("-a only makes sense with -K or a command to run") (by decide)

/-- C7: cleanup sends exactly one SIGHUP to the child exactly when the run
ends abnormally (a renewal failure, not the child's own exit) while the
recorded child PID is nonzero and the signal-on-failure option is set; when
the run ends because the child itself exited, or the option is unset, no
hang-up signal is sent. -/
theorem cleanup_sighup_policy (config : Config) (r : EndReason) :
    (r = .renewalFailure → config.child ≠ 0 → config.signal_child = true →
      signalsAtEnd config r = [(config.child, SIGHUP)]) ∧
    (r = .childExited → signalsAtEnd config r = []) ∧
    (config.signal_child = false → signalsAtEnd config r = []) := by
  refine ⟨?_, ?_, ?_⟩
  · intro hr hc hs
    subst hr
    simp [signalsAtEnd, configAtCleanup, cleanup, hc, hs]
  · intro hr
    subst hr
    simp [signalsAtEnd, configAtCleanup, cleanup]
  · intro hs
    cases r <;> simp [signalsAtEnd, configAtCleanup, cleanup, hs]

/-- Closed witness for the C7 theorem: abnormal end, child 42 running,
signal-on-failure set, delivers exactly one SIGHUP to 42. -/
theorem cleanup_sighup_policy_witness :
    signalsAtEnd { child := 42, signal_child := true } .renewalFailure =
      [(42, SIGHUP)] :=
  (cleanup_sighup_policy { child := 42, signal_child := true } .renewalFailure).1
    rfl (by decide) rfl

/-- C3: when a command is supervised, `main` duplicates the cache into a fresh
temporary file and marks it for deletion (`clean_cache`), and on every exit
path — success, renewal failure, or child-driven — the cleanup stage removes
the temporary cache's backing file, so it does not exist once the process
exits. -/
theorem temp_cache_removed_on_exit (config : Config) (name : String) (r : EndReason)
    (h : config.command ≠ none) :
    (mainCacheSetup config name).2 = true ∧
    tempExistsAtExit (mainCacheSetup config name).1 (mainCacheSetup config name).2 r =
      false := by
  unfold mainCacheSetup
  rw [if_pos h]
  cases r <;> simp [tempExistsAtExit, exitCleanupTempFile]

/-- Closed witness for the C3 theorem with a supervised command, on the
child-driven exit path. -/
theorem temp_cache_removed_on_exit_witness :
    (mainCacheSetup { command := some ["sleep", "60"] } "/tmp/krb5cc_0_x").2 = true ∧
    tempExistsAtExit (mainCacheSetup { command := some ["sleep", "60"] } "/tmp/krb5cc_0_x").1
      (mainCacheSetup { command := some ["sleep", "60"] } "/tmp/krb5cc_0_x").2 .childExited =
      false :=
  temp_cache_removed_on_exit { command := some ["sleep", "60"] } "/tmp/krb5cc_0_x"
    .childExited (by decide)

/-- C9: invoked without the skip-close-streams option (noclose = false), a
daemonizer run that returns success has redirected standard input, output and
error to the null device and left no descriptor beyond the three standard
streams open; a failure of the open, or of any of the three duplications,
makes it return -1 immediately, with the trace showing no further step was
attempted after the failing one. -/
theorem daemon_redirect_streams (env : DaemonEnv) (nochdir : Bool)
    (hf : env.forkResult = 0) (hsid : env.setsidOk = true)
    (hch : nochdir = true ∨ env.chdirOk = true) :
    ((daemon nochdir false env).1 = .ret 0 →
      (daemon nochdir false env).2.1.stdinNull = true ∧
      (daemon nochdir false env).2.1.stdoutNull = true ∧
      (daemon nochdir false env).2.1.stderrNull = true ∧
      ∀ f ∈ (daemon nochdir false env).2.1.extraOpen, f ≤ 2) ∧
    (env.openNullFd = none →
      (daemon nochdir false env).1 = .ret (-1) ∧
      (daemon nochdir false env).2.2 = daemonPrefixTrace nochdir ++ [.openNull false]) ∧
    (∀ fd, env.openNullFd = some fd →
      (env.dup2StdinOk = false →
        (daemon nochdir false env).1 = .ret (-1) ∧
        (daemon nochdir false env).2.2 =
          daemonPrefixTrace nochdir ++ [.openNull true, .dup2Null 0 false]) ∧
      (env.dup2StdinOk = true → env.dup2StdoutOk = false →
        (daemon nochdir false env).1 = .ret (-1) ∧
        (daemon nochdir false env).2.2 =
          daemonPrefixTrace nochdir ++
            [.openNull true, .dup2Null 0 true, .dup2Null 1 false]) ∧
      (env.dup2StdinOk = true → env.dup2StdoutOk = true → env.dup2StderrOk = false →
        (daemon nochdir false env).1 = .ret (-1) ∧
        (daemon nochdir false env).2.2 =
          daemonPrefixTrace nochdir ++
            [.openNull true, .dup2Null 0 true, .dup2Null 1 true, .dup2Null 2 false])) := by
  have h1 : ¬(env.forkResult < 0) := by rw [hf]; omega
  have h2 : ¬(env.forkResult > 0) := by rw [hf]; omega
  have h3 : ¬¬(env.setsidOk = true) := by simp [hsid]
  have h4 : ¬(¬(nochdir = true) ∧ ¬(env.chdirOk = true)) := by
    rcases hch with h | h <;> simp [h]
  unfold daemon
  rw [if_neg h1, if_neg h2, if_neg h3, if_neg h4, if_neg (by simp : ¬(false = true))]
  cases ho : env.openNullFd with
  | none => simp
  | some fd =>
    refine ⟨?_, ?_, ?_⟩
    · intro hret
      by_cases d0 : env.dup2StdinOk = true
      · by_cases d1 : env.dup2StdoutOk = true
        · by_cases d2 : env.dup2StderrOk = true
          · by_cases hfd : fd > 2
            · simp [d0, d1, d2, hfd]
            · simp only [d0, d1, d2, hfd] at hret ⊢
              simp at hret ⊢
              omega
          · simp only [d0, d1] at hret
            simp [d2] at hret
        · simp only [d0] at hret
          simp [d1] at hret
      · simp [d0] at hret
    · intro hno
      simp at hno
    · intro fd2 hfd2
      simp only [Option.some.injEq] at hfd2
      subst hfd2
      refine ⟨?_, ?_, ?_⟩
      · intro d0
        simp [d0]
      · intro d0 d1
        simp [d0, d1]
      · intro d0 d1 d2
        simp [d0, d1, d2]

/-- Closed witness for the C9 theorem: all steps succeed with the null device
opened on descriptor 3; the run returns 0 with all three streams redirected
and no extra descriptor open. -/
theorem daemon_redirect_streams_witness :
    (daemon false false ⟨0, true, true, some 3, true, true, true⟩).2.1.stdinNull = true ∧
    (daemon false false ⟨0, true, true, some 3, true, true, true⟩).2.1.stdoutNull = true ∧
    (daemon false false ⟨0, true, true, some 3, true, true, true⟩).2.1.stderrNull = true ∧
    ∀ f ∈ (daemon false false ⟨0, true, true, some 3, true, true, true⟩).2.1.extraOpen,
      f ≤ 2 :=
  (daemon_redirect_streams ⟨0, true, true, some 3, true, true, true⟩ false rfl rfl
    (Or.inr rfl)).1 (by decide)

/-- C10: a `-H` or `-K` option argument evaluating to a value less than or
equal to zero makes the program die during option parsing, before any
Kerberos context is established; in particular an interval of exactly 0
cannot be requested on the command line. -/
theorem optarg_nonpositive_rejected (hv kv pv : Int) (k : Option Int) (c : Config)
    (e : Int) (hh : hv ≤ 0) (hk : kv ≤ 0) (hp : 0 < pv) :
    mainStartup (some hv) k c e = (.died "-H limit argument invalid", false) ∧
    mainStartup none (some kv) c e = (.died "-K interval argument invalid", false) ∧
    mainStartup (some pv) (some kv) c e = (.died "-K interval argument invalid", false) ∧
    mainStartup none (some 0) c e = (.died "-K interval argument invalid", false) := by
  have hnp : ¬(pv ≤ 0) := by omega
  unfold mainStartup parseOptArgs
  refine ⟨?_, ?_, ?_, ?_⟩ <;> simp [hh, hk, hnp]

/-- Closed witness for the C10 theorem at `-H -5` and `-K 0`. -/
theorem optarg_nonpositive_rejected_witness :
    mainStartup (some (-5)) none { } 0 = (.died "-H limit argument invalid", false) ∧
    mainStartup none (some 0) { } 0 = (.died "-K interval argument invalid", false) ∧
    mainStartup (some 3) (some 0) { } 0 = (.died "-K interval argument invalid", false) ∧
    mainStartup none (some 0) { } 0 = (.died "-K interval argument invalid", false) :=
  optarg_nonpositive_rejected (-5) 0 3 none { } 0 (by decide) (by decide) (by decide)

end KStart
